import Mathlib

/-!
Verification of the SFT launcher script (src/sft.py) against its
natural-language specification.  The script is orchestration glue; the
parts the claims depend on are embedded shallowly below:

* a small model of untyped Python values (strings, lists, dicts) with
  fallible subscripting, used to embed `formatting_prompts_func`
  (src/sft.py lines 140-150);
* the model-loading keyword construction and architecture dispatch
  (lines 104-126);
* the tokenizer pad-token fallback (lines 129-133);
* the post-training persistence sequence (lines 164-169) as a trace of
  trainer events;
* the report_to override at entry (lines 181-185).
-/

namespace SftScript

/-- A Python runtime error kind, as raised by subscripting. -/
inductive PyErr where
  | keyError
  | indexError
  | typeError
deriving Repr, DecidableEq

/-- An untyped Python value, restricted to the shapes dataset examples
take: strings, lists, and string-keyed dicts. -/
inductive PyVal where
  | str  : String → PyVal
  | list : List PyVal → PyVal
  | dict : List (String × PyVal) → PyVal

/-- Python subscripting with a string key, `v[k]`.  On a dict it is a
key lookup raising KeyError when absent; on a list or a string it
raises TypeError (indices must be integers). -/
def PyVal.subscriptStr : PyVal → String → Except PyErr PyVal
  | .dict kvs, k =>
    match kvs.lookup k with
    | some v => .ok v
    | none => .error .keyError
  | .list _, _ => .error .typeError
  | .str _, _ => .error .typeError

/-- Python subscripting with a non-negative integer, `v[i]`.  On a list
it is positional indexing raising IndexError when out of range; on a
string it yields the one-character string, and on a dict it is a lookup
of an integer key, which our string-keyed dicts never hold, hence
KeyError. -/
def PyVal.subscriptNat : PyVal → Nat → Except PyErr PyVal
  | .list xs, i =>
    match xs[i]? with
    | some v => .ok v
    | none => .error .indexError
  | .str s, i =>
    match s.data[i]? with
    | some c => .ok (.str (String.mk [c]))
    | none => .error .indexError
  | .dict _, _ => .error .keyError

/-- Python `len` on the value shapes we model: length of a string, of a
list, or the number of entries of a dict. -/
def pyLen : PyVal → Nat
  | .str s => s.data.length
  | .list xs => xs.length
  | .dict kvs => kvs.length

mutual

/-- Python `repr` of a value (used by str() on lists and dicts). -/
def pyRepr : PyVal → String
  | .str s => "\x27" ++ s ++ "\x27"
  | .list xs => "[" ++ pyReprList xs ++ "]"
  | .dict kvs => "\x7b" ++ pyReprDict kvs ++ "\x7d"

/-- Comma-separated reprs of the elements of a Python list. -/
def pyReprList : List PyVal → String
  | [] => ""
  | [x] => pyRepr x
  | x :: y :: xs => pyRepr x ++ ", " ++ pyReprList (y :: xs)

/-- Comma-separated reprs of the entries of a Python dict. -/
def pyReprDict : List (String × PyVal) → String
  | [] => ""
  | [(k, v)] => "\x27" ++ k ++ "\x27: " ++ pyRepr v
  | (k, v) :: e :: kvs => "\x27" ++ k ++ "\x27: " ++ pyRepr v ++ ", " ++ pyReprDict (e :: kvs)

end

/-- Python `str` of a value, as interpolated by an f-string: a string
interpolates as itself, other values by their repr. -/
def pyStr : PyVal → String
  | .str s => s
  | v => pyRepr v

/-- The formatted exchange string built at src/sft.py lines 144 and 147:
User text and Assistant text joined by the fixed markers. -/
def exchangeText (user assistant : String) : String :=
  "### User: " ++ user ++ "\n\n### Assistant: " ++ assistant

/-- One iteration of the loop at src/sft.py lines 146-148: index the
pair out of chosen, take element 0 and element 1, read the content of
each and build the formatted string. -/
def formatOnePair (chosen : PyVal) (i : Nat) : Except PyErr String := do
  let ci ← chosen.subscriptNat i
  let p0 ← ci.subscriptNat 0
  let u ← p0.subscriptStr "content"
  let p1 ← ci.subscriptNat 1
  let a ← p1.subscriptStr "content"
  pure (exchangeText (pyStr u) (pyStr a))

/-- The loop at src/sft.py lines 146-148 over a list of indices,
appending one formatted string per index in order; a raised error
aborts the whole call, discarding strings built so far. -/
def formatPairs (chosen : PyVal) : List Nat → Except PyErr (List String)
  | [] => .ok []
  | i :: rest => do
    let text ← formatOnePair chosen i
    let tail ← formatPairs chosen rest
    pure (text :: tail)

/-- Embedding of `formatting_prompts_func` (src/sft.py lines 140-150).
If the chosen field has exactly two elements it is treated as one flat
two-turn exchange; otherwise one string is produced per pair
chosen[i]. -/
def formatting_prompts_func (ex : PyVal) : Except PyErr (List String) := do
  let chosen ← ex.subscriptStr "chosen"
  if pyLen chosen = 2 then
    let c0 ← chosen.subscriptNat 0
    let u ← c0.subscriptStr "content"
    let c1 ← chosen.subscriptNat 1
    let a ← c1.subscriptStr "content"
    pure [exchangeText (pyStr u) (pyStr a)]
  else
    formatPairs chosen (List.range (pyLen chosen))

/-- A convenience constructor for a single turn dict with a content
string, the well-formed shape of dataset turns. -/
def turn (content : String) : PyVal :=
  .dict [("content", .str content)]

example :
    formatting_prompts_func (.dict [("chosen", .list [turn "Hi", turn "Hello!"])]) =
      .ok ["### User: Hi\n\n### Assistant: Hello!"] := rfl

example :
    formatting_prompts_func
        (.dict [("chosen", .list
          [.list [turn "A", turn "B"], .list [turn "C", turn "D"],
           .list [turn "E", turn "F"]])]) =
      .ok ["### User: A\n\n### Assistant: B", "### User: C\n\n### Assistant: D",
           "### User: E\n\n### Assistant: F"] := rfl

example :
    formatting_prompts_func
        (.dict [("chosen", .list
          [.list [turn "A", turn "B"], .list [turn "C", turn "D"]])]) =
      .error .typeError := rfl

example :
    formatting_prompts_func (.dict [("chosen", .list [])]) = .ok [] := rfl

/-- The fields of ScriptArguments that this script reads (dataset
selection), mirroring the trl dataclass consumed at lines 138, 158 and
169. -/
structure ScriptArguments where
  dataset_name : String
  dataset_config : Option String
  dataset_train_split : String
deriving Repr, DecidableEq

/-- The fields of the SFTConfig training configuration that this script
reads or writes: the report_to override (line 184), gradient
checkpointing (mentioned only in the commented-out line 110), the
output directory and the push flag (lines 167-168). -/
structure SFTConfig where
  report_to : List String
  gradient_checkpointing : Bool
  output_dir : String
  push_to_hub : Bool
deriving Repr, DecidableEq

/-- A quantization configuration as returned by the external
get_quantization_config helper when the model arguments request
quantization; the script only tests it against None and forwards it. -/
structure QuantizationConfig where
  bits : Nat
deriving Repr, DecidableEq

/-- The fields of ModelConfig that this script reads when building the
model keyword arguments (lines 106-107) and the load calls (lines 124,
126, 129-130). -/
structure ModelArguments where
  model_name_or_path : String
  model_revision : String
  trust_remote_code : Bool
deriving Repr, DecidableEq

/-- The device_map argument of the load call: either the literal auto
placement string or the per-device map produced by the external
get_kbit_device_map helper (line 112). -/
inductive DeviceMap where
  | auto
  | kbitMap
deriving Repr, DecidableEq

/-- The keyword arguments assembled at src/sft.py lines 105-114.
use_cache is optional because the image-text-to-text branch pops it
(line 123); none models an absent keyword. -/
structure ModelKwargs where
  revision : String
  trust_remote_code : Bool
  attn_implementation : String
  torch_dtype : String
  use_cache : Option Bool
  device_map : DeviceMap
  quantization_config : Option QuantizationConfig
deriving Repr, DecidableEq

/-- The model_kwargs dict built at src/sft.py lines 105-114:
use_cache is unconditionally False (line 111; the gradient
checkpointing coupling of line 110 is commented out, so training_args
is not consulted), and device_map is the kbit map exactly when a
quantization configuration was produced (line 112). -/
def buildModelKwargs (training_args : SFTConfig) (model_args : ModelArguments)
    (quantization_config : Option QuantizationConfig) : ModelKwargs :=
  { revision := model_args.model_revision
    trust_remote_code := model_args.trust_remote_code
    attn_implementation := "flash_attention_2"
    torch_dtype := "bfloat16"
    use_cache := some false
    device_map := if quantization_config.isSome then .kbitMap else .auto
    quantization_config := quantization_config }

/-- Which loading entry point line 124 or line 126 calls. -/
inductive ModelLoader where
  | imageTextToText
  | causalLM
deriving Repr, DecidableEq

/-- The from_pretrained call the script issues: which auto class, the
model identifier, and the keyword arguments it receives. -/
structure LoadCall where
  loader : ModelLoader
  name : String
  kwargs : ModelKwargs
deriving Repr, DecidableEq

/-- The condition of line 120: config.architectures is truthy (not None
and not the empty list) and at least one declared architecture is in
the image-text-to-text registry. architectures none models both an
absent field and None. -/
def usesImageTextToText (architectures : Option (List String))
    (registry : List String) : Bool :=
  match architectures with
  | none => false
  | some archs => !archs.isEmpty && archs.any (fun arch => registry.contains arch)

/-- The branch at src/sft.py lines 120-126: on the image-text-to-text
path the use_cache keyword is popped before loading; otherwise the
causal-LM class is loaded with the kwargs untouched. -/
def createModel (model_args : ModelArguments) (kwargs : ModelKwargs)
    (architectures : Option (List String)) (registry : List String) : LoadCall :=
  if usesImageTextToText architectures registry then
    { loader := .imageTextToText
      name := model_args.model_name_or_path
      kwargs := { kwargs with use_cache := none } }
  else
    { loader := .causalLM
      name := model_args.model_name_or_path
      kwargs := kwargs }

/-- The whole model-acquisition step, lines 104-126: build the keyword
dict from the training and model arguments and the quantization
configuration, then dispatch on the resolved architectures. -/
def modelLoadCall (training_args : SFTConfig) (model_args : ModelArguments)
    (quantization_config : Option QuantizationConfig)
    (architectures : Option (List String)) (registry : List String) : LoadCall :=
  createModel model_args (buildModelKwargs training_args model_args quantization_config)
    architectures registry

/-- The tokenizer fields the script touches at lines 132-133. -/
structure Tokenizer where
  pad_token : Option String
  eos_token : Option String
deriving Repr, DecidableEq

/-- The pad-token fallback at src/sft.py lines 132-133: when pad_token
is None it is set to eos_token, otherwise the tokenizer is left
unchanged. -/
def applyPadTokenFallback (tokenizer : Tokenizer) : Tokenizer :=
  if tokenizer.pad_token = none then
    { tokenizer with pad_token := tokenizer.eos_token }
  else
    tokenizer

/-- The trainer calls issued after construction, in program order. -/
inductive TrainerEvent where
  | train
  | saveModel (dir : String)
  | pushToHub (dataset_name : String)
deriving Repr, DecidableEq

/-- The sequence of trainer calls at src/sft.py lines 164-169: train,
then save_model to the output directory, then push_to_hub tagged with
the dataset name exactly when the push flag is set. -/
def trainAndPersist (script_args : ScriptArguments) (training_args : SFTConfig) :
    List TrainerEvent :=
  [.train, .saveModel training_args.output_dir] ++
    (if training_args.push_to_hub then [.pushToHub script_args.dataset_name] else [])

/-- The post-parse override at src/sft.py line 184: the parsed training
configuration has its report_to field replaced by the empty list before
main runs. -/
def overrideReportTo (parsed : SFTConfig) : SFTConfig :=
  { parsed with report_to := [] }

/-- The script entry point, lines 181-185, restricted to what it does
with the training configuration: main receives the parsed configuration
with report_to overridden, and eventually issues the persistence
trace. -/
def scriptMainTrace (script_args : ScriptArguments) (parsed : SFTConfig) :
    List TrainerEvent :=
  trainAndPersist script_args (overrideReportTo parsed)

/-! Theorems settling the claims. -/

/-- Helper: binding an ok value just applies the continuation. -/
@[simp] theorem except_ok_bind {α β ε : Type} (x : α) (f : α → Except ε β) :
    (Except.ok x : Except ε α) >>= f = f x := rfl

/-- Helper: binding an error propagates the error. -/
@[simp] theorem except_error_bind {α β ε : Type} (e : ε) (f : α → Except ε β) :
    (Except.error e : Except ε α) >>= f = .error e := rfl

/-- Helper: the formatting loop over a list of indices succeeds with
one string per index when every iteration succeeds. -/
theorem formatPairs_ok (chosen : PyVal) (l : List Nat) (f : Nat → String)
    (h : ∀ i ∈ l, formatOnePair chosen i = .ok (f i)) :
    formatPairs chosen l = .ok (l.map f) := by
  induction l with
  | nil => rfl
  | cons i rest ih =>
    simp [formatPairs, h i (by simp), ih fun j hj => h j (by simp [hj])]

/-- C1: an example whose chosen field has exactly two elements, each a
mapping carrying a content string, formats to the single string
joining the two contents with the User and Assistant markers; in
particular the Hi, Hello! input yields exactly that one string. -/
theorem flat_pair_formatting :
    (∀ (ex t0 t1 : PyVal) (u a : String),
      ex.subscriptStr "chosen" = .ok (.list [t0, t1]) →
      t0.subscriptStr "content" = .ok (.str u) →
      t1.subscriptStr "content" = .ok (.str a) →
      formatting_prompts_func ex =
        .ok ["### User: " ++ u ++ "\n\n### Assistant: " ++ a]) ∧
    formatting_prompts_func (.dict [("chosen", .list [turn "Hi", turn "Hello!"])]) =
      .ok ["### User: Hi\n\n### Assistant: Hello!"] := by
  constructor
  · intro ex t0 t1 u a hc h0 h1
    simp [formatting_prompts_func, hc, pyLen, PyVal.subscriptNat, h0, h1, pyStr,
      exchangeText]
  · rfl

/-- C1 witness: the general statement applied to the Hi, Hello!
example. -/
theorem flat_pair_formatting_witness :
    formatting_prompts_func (.dict [("chosen", .list [turn "Hi", turn "Hello!"])]) =
      .ok ["### User: Hi\n\n### Assistant: Hello!"] :=
  flat_pair_formatting.1 (.dict [("chosen", .list [turn "Hi", turn "Hello!"])])
    (turn "Hi") (turn "Hello!") "Hi" "Hello!" rfl rfl rfl

/-- C2: an example whose chosen field is a list of N two-element pairs
with N different from 2, each pair element a mapping carrying a content
string, formats to exactly N strings, the i-th joining the contents of
pair i, in order. -/
theorem pair_sequence_formatting (ex : PyVal) (rows : List PyVal)
    (p0 p1 : Nat → PyVal) (u a : Nat → String)
    (hc : ex.subscriptStr "chosen" = .ok (.list rows))
    (hN : rows.length ≠ 2)
    (hrow : ∀ i (h : i < rows.length), rows[i] = PyVal.list [p0 i, p1 i])
    (h0 : ∀ i, i < rows.length → (p0 i).subscriptStr "content" = .ok (.str (u i)))
    (h1 : ∀ i, i < rows.length → (p1 i).subscriptStr "content" = .ok (.str (a i))) :
    formatting_prompts_func ex =
      .ok ((List.range rows.length).map fun i =>
        "### User: " ++ u i ++ "\n\n### Assistant: " ++ a i) := by
  have hfp : ∀ i ∈ List.range rows.length,
      formatOnePair (.list rows) i =
        .ok ("### User: " ++ u i ++ "\n\n### Assistant: " ++ a i) := by
    intro i hi
    have h : i < rows.length := List.mem_range.mp hi
    simp [formatOnePair, PyVal.subscriptNat, List.getElem?_eq_getElem h, hrow i h,
      h0 i h, h1 i h, pyStr, exchangeText]
  calc formatting_prompts_func ex
      = formatPairs (.list rows) (List.range (pyLen (.list rows))) := by
        simp [formatting_prompts_func, hc, pyLen, hN]
    _ = .ok ((List.range rows.length).map fun i =>
          "### User: " ++ u i ++ "\n\n### Assistant: " ++ a i) :=
        formatPairs_ok _ _ _ hfp

/-- C2 witness: three two-element pairs format to three strings. -/
theorem pair_sequence_formatting_witness :
    formatting_prompts_func
        (.dict [("chosen", .list
          [.list [turn "A", turn "B"], .list [turn "C", turn "D"],
           .list [turn "E", turn "F"]])]) =
      .ok ((List.range 3).map fun i =>
        "### User: " ++ ["A", "C", "E"].getD i "" ++ "\n\n### Assistant: " ++
          ["B", "D", "F"].getD i "") := by
  exact pair_sequence_formatting
    (.dict [("chosen", .list
      [.list [turn "A", turn "B"], .list [turn "C", turn "D"],
       .list [turn "E", turn "F"]])])
    [.list [turn "A", turn "B"], .list [turn "C", turn "D"], .list [turn "E", turn "F"]]
    (fun i => turn (["A", "C", "E"].getD i ""))
    (fun i => turn (["B", "D", "F"].getD i ""))
    (fun i => ["A", "C", "E"].getD i "")
    (fun i => ["B", "D", "F"].getD i "")
    rfl (by decide)
    (by intro i h; have h3 : i < 3 := h; interval_cases i <;> rfl)
    (by intro i h; have h3 : i < 3 := h; interval_cases i <;> rfl)
    (by intro i h; have h3 : i < 3 := h; interval_cases i <;> rfl)

/-- C9: an example whose chosen field is the empty list formats to the
empty list of strings without failing: length 0 is not 2, and the loop
over range 0 performs no iteration. -/
theorem empty_chosen_formatting (ex : PyVal)
    (hc : ex.subscriptStr "chosen" = .ok (.list [])) :
    formatting_prompts_func ex = .ok [] := by
  simp [formatting_prompts_func, hc, pyLen, formatPairs]

/-- C9 witness: the empty-chosen dict formats to the empty list. -/
theorem empty_chosen_formatting_witness :
    formatting_prompts_func (.dict [("chosen", .list [])]) = .ok [] :=
  empty_chosen_formatting (.dict [("chosen", .list [])]) rfl

/-- C7: malformed chosen shapes make the function raise the raw
subscripting error instead of returning a value: with exactly two
elements, a first or second element that is not a mapping with a
content key propagates its raw key or type error; a pair missing an
element in the loop branch raises a raw IndexError, shown on a concrete
three-pair input whose middle pair has one element, and two concrete
two-element inputs of non-mapping turns raise the raw type and key
errors.  No validation happens beyond the length-2 branch test. -/
theorem malformed_chosen_raises :
    (∀ (ex t0 t1 : PyVal) (e : PyErr),
      ex.subscriptStr "chosen" = .ok (.list [t0, t1]) →
      t0.subscriptStr "content" = .error e →
      formatting_prompts_func ex = .error e) ∧
    (∀ (ex t0 t1 v : PyVal) (e : PyErr),
      ex.subscriptStr "chosen" = .ok (.list [t0, t1]) →
      t0.subscriptStr "content" = .ok v →
      t1.subscriptStr "content" = .error e →
      formatting_prompts_func ex = .error e) ∧
    formatting_prompts_func (.dict [("chosen", .list [.str "x", .str "y"])]) =
      .error .typeError ∧
    formatting_prompts_func (.dict [("chosen", .list [.dict [], turn "y"])]) =
      .error .keyError ∧
    formatting_prompts_func
        (.dict [("chosen", .list
          [.list [turn "A", turn "B"], .list [turn "C"],
           .list [turn "E", turn "F"]])]) =
      .error .indexError := by
  refine ⟨?_, ?_, rfl, rfl, rfl⟩
  · intro ex t0 t1 e hc h0
    simp [formatting_prompts_func, hc, pyLen, PyVal.subscriptNat, h0]
  · intro ex t0 t1 v e hc h0 h1
    simp [formatting_prompts_func, hc, pyLen, PyVal.subscriptNat, h0, h1]

/-- C7 witness: the first general part applied to a concrete chosen
list whose first element is a bare string, yielding the raw
TypeError. -/
theorem malformed_chosen_raises_witness :
    formatting_prompts_func (.dict [("chosen", .list [.str "q", turn "y"])]) =
      .error .typeError :=
  malformed_chosen_raises.1 (.dict [("chosen", .list [.str "q", turn "y"])])
    (.str "q") (turn "y") .typeError rfl rfl

/-- C3: when the resolved config declares an architecture that is in
the image-text-to-text registry the load call carries no use_cache
keyword; when no declared architecture is in the registry the load call
carries use_cache set to false; and the whole load call is independent
of the training configuration, in particular of its gradient
checkpointing flag. -/
theorem use_cache_policy (training_args : SFTConfig) (model_args : ModelArguments)
    (quantization_config : Option QuantizationConfig)
    (architectures : Option (List String)) (registry : List String) :
    (∀ archs arch, architectures = some archs → arch ∈ archs → arch ∈ registry →
      (modelLoadCall training_args model_args quantization_config architectures
        registry).kwargs.use_cache = none) ∧
    ((∀ archs arch, architectures = some archs → arch ∈ archs → arch ∉ registry) →
      (modelLoadCall training_args model_args quantization_config architectures
        registry).kwargs.use_cache = some false) ∧
    (∀ training_args2 : SFTConfig,
      modelLoadCall training_args model_args quantization_config architectures registry =
        modelLoadCall training_args2 model_args quantization_config architectures
          registry) := by
  refine ⟨?_, ?_, fun training_args2 => rfl⟩
  · intro archs arch hsome hmem hreg
    have himg : usesImageTextToText architectures registry = true := by
      subst hsome
      simp only [usesImageTextToText, Bool.and_eq_true, List.any_eq_true]
      exact ⟨by simpa using List.ne_nil_of_mem hmem,
        arch, hmem, by simpa using hreg⟩
    simp [modelLoadCall, createModel, himg]
  · intro hno
    have himg : usesImageTextToText architectures registry = false := by
      cases architectures with
      | none => rfl
      | some archs =>
        have hany : archs.any (fun arch => registry.contains arch) = false := by
          simp only [List.any_eq_false]
          intro arch hmem
          simpa using hno archs arch rfl hmem
        simp only [usesImageTextToText, hany, Bool.and_false]
    simp [modelLoadCall, createModel, himg, buildModelKwargs]

/-- C3 witness: a declared registry architecture drops use_cache, a
non-registry one keeps use_cache false. -/
theorem use_cache_policy_witness :
    (modelLoadCall ⟨[], false, "out", false⟩ ⟨"m", "main", false⟩ none
      (some ["LlavaForConditionalGeneration"])
      ["LlavaForConditionalGeneration"]).kwargs.use_cache = none ∧
    (modelLoadCall ⟨[], false, "out", false⟩ ⟨"m", "main", false⟩ none
      (some ["Qwen2ForCausalLM"])
      ["LlavaForConditionalGeneration"]).kwargs.use_cache = some false :=
  ⟨(use_cache_policy ⟨[], false, "out", false⟩ ⟨"m", "main", false⟩ none
      (some ["LlavaForConditionalGeneration"]) ["LlavaForConditionalGeneration"]).1
      ["LlavaForConditionalGeneration"] "LlavaForConditionalGeneration" rfl
      (by simp) (by simp),
   (use_cache_policy ⟨[], false, "out", false⟩ ⟨"m", "main", false⟩ none
      (some ["Qwen2ForCausalLM"]) ["LlavaForConditionalGeneration"]).2.1
      (by intro archs arch hsome hmem; cases hsome; simp at hmem; subst hmem; decide)⟩

/-- C10: with no declared architectures, whether the field is None or
the empty list, the causal-LM path is taken with use_cache false, and
the image-text-to-text path is taken only when some declared
architecture is in the registry. -/
theorem no_architectures_defaults (training_args : SFTConfig)
    (model_args : ModelArguments) (quantization_config : Option QuantizationConfig)
    (registry : List String) :
    ((modelLoadCall training_args model_args quantization_config none
        registry).loader = .causalLM ∧
      (modelLoadCall training_args model_args quantization_config none
        registry).kwargs.use_cache = some false) ∧
    ((modelLoadCall training_args model_args quantization_config (some [])
        registry).loader = .causalLM ∧
      (modelLoadCall training_args model_args quantization_config (some [])
        registry).kwargs.use_cache = some false) ∧
    (∀ architectures : Option (List String),
      (modelLoadCall training_args model_args quantization_config architectures
        registry).loader = .imageTextToText →
      ∃ archs arch, architectures = some archs ∧ arch ∈ archs ∧ arch ∈ registry) := by
  refine ⟨⟨rfl, rfl⟩, ⟨rfl, rfl⟩, ?_⟩
  intro architectures h
  cases himg : usesImageTextToText architectures registry with
  | true =>
    cases architectures with
    | none => simp [usesImageTextToText] at himg
    | some archs =>
      simp only [usesImageTextToText, Bool.and_eq_true, List.any_eq_true] at himg
      obtain ⟨_, arch, hmem, hreg⟩ := himg
      exact ⟨archs, arch, rfl, hmem, by simpa using hreg⟩
  | false =>
    have hcausal : (modelLoadCall training_args model_args quantization_config
        architectures registry).loader = .causalLM := by
      simp [modelLoadCall, createModel, himg]
    simp [hcausal] at h

/-- C10 witness: the third part applied to a declared architecture that
is in the registry. -/
theorem no_architectures_defaults_witness :
    ∃ archs arch,
      (some ["LlavaForConditionalGeneration"] : Option (List String)) = some archs ∧
      arch ∈ archs ∧ arch ∈ ["LlavaForConditionalGeneration"] :=
  (no_architectures_defaults ⟨[], false, "out", false⟩ ⟨"m", "main", false⟩ none
    ["LlavaForConditionalGeneration"]).2.2
    (some ["LlavaForConditionalGeneration"]) (by decide)

/-- C8: when a quantization configuration is produced the load call
receives the kbit per-device map, and without one it receives the auto
placement, on either load path. -/
theorem device_map_policy (training_args : SFTConfig) (model_args : ModelArguments)
    (architectures : Option (List String)) (registry : List String) :
    (∀ quantization_config : QuantizationConfig,
      (modelLoadCall training_args model_args (some quantization_config)
        architectures registry).kwargs.device_map = .kbitMap) ∧
    (modelLoadCall training_args model_args none architectures
      registry).kwargs.device_map = .auto := by
  constructor
  · intro quantization_config
    cases himg : usesImageTextToText architectures registry <;>
      simp [modelLoadCall, createModel, buildModelKwargs, himg]
  · cases himg : usesImageTextToText architectures registry <;>
      simp [modelLoadCall, createModel, buildModelKwargs, himg]

/-- C4: a tokenizer with no pad token gets its eos token as pad token,
and a tokenizer that already has one is left unchanged. -/
theorem pad_token_fallback (tokenizer : Tokenizer) :
    (tokenizer.pad_token = none →
      (applyPadTokenFallback tokenizer).pad_token = tokenizer.eos_token) ∧
    (∀ p, tokenizer.pad_token = some p → applyPadTokenFallback tokenizer = tokenizer) := by
  constructor
  · intro h
    simp [applyPadTokenFallback, h]
  · intro p h
    simp [applyPadTokenFallback, h]

/-- C4 witness: both branches at concrete tokenizers. -/
theorem pad_token_fallback_witness :
    (applyPadTokenFallback ⟨none, some "eos"⟩).pad_token = some "eos" ∧
    applyPadTokenFallback ⟨some "pad", some "eos"⟩ = ⟨some "pad", some "eos"⟩ :=
  ⟨(pad_token_fallback ⟨none, some "eos"⟩).1 rfl,
   (pad_token_fallback ⟨some "pad", some "eos"⟩).2 "pad" rfl⟩

/-- C5: the trainer call sequence starts with train, then saves the
model to the output directory; a push event is in the trace exactly
when the push flag is set; and any push event carries the dataset name
and is preceded by the save. -/
theorem persistence_trace (script_args : ScriptArguments) (training_args : SFTConfig) :
    (trainAndPersist script_args training_args)[0]? = some .train ∧
    (trainAndPersist script_args training_args)[1]? =
      some (.saveModel training_args.output_dir) ∧
    (TrainerEvent.pushToHub script_args.dataset_name ∈
        trainAndPersist script_args training_args ↔
      training_args.push_to_hub = true) ∧
    (∀ (j : Nat) (name : String),
      (trainAndPersist script_args training_args)[j]? = some (.pushToHub name) →
      name = script_args.dataset_name ∧
      ∃ i, i < j ∧ (trainAndPersist script_args training_args)[i]? =
        some (.saveModel training_args.output_dir)) := by
  cases hp : training_args.push_to_hub with
  | false =>
    refine ⟨by simp [trainAndPersist, hp], by simp [trainAndPersist, hp],
      by simp [trainAndPersist, hp], ?_⟩
    intro j name hj
    match j with
    | 0 => simp [trainAndPersist, hp] at hj
    | 1 => simp [trainAndPersist, hp] at hj
    | n + 2 => simp [trainAndPersist, hp] at hj
  | true =>
    refine ⟨by simp [trainAndPersist, hp], by simp [trainAndPersist, hp],
      by simp [trainAndPersist, hp], ?_⟩
    intro j name hj
    match j with
    | 0 => simp [trainAndPersist, hp] at hj
    | 1 => simp [trainAndPersist, hp] at hj
    | 2 =>
      simp [trainAndPersist, hp] at hj
      exact ⟨hj.symm, 1, by omega, by simp [trainAndPersist, hp]⟩
    | n + 3 => simp [trainAndPersist, hp] at hj

/-- C5 witness: with the push flag set, the push event at index 2
carries the dataset name and the save sits before it. -/
theorem persistence_trace_witness :
    ("ds" = (ScriptArguments.mk "ds" none "train").dataset_name) ∧
    ∃ i, i < 2 ∧
      (trainAndPersist ⟨"ds", none, "train"⟩ ⟨[], false, "out", true⟩)[i]? =
        some (.saveModel "out") :=
  (persistence_trace ⟨"ds", none, "train"⟩ ⟨[], false, "out", true⟩).2.2.2 2 "ds" rfl

/-- C6: whatever reporting destinations were parsed, the script entry
overrides report_to to the empty list, leaving the other fields alone,
and main sees the overridden configuration. -/
theorem report_to_override (script_args : ScriptArguments) (parsed : SFTConfig) :
    (overrideReportTo parsed).report_to = [] ∧
    (overrideReportTo parsed).gradient_checkpointing = parsed.gradient_checkpointing ∧
    (overrideReportTo parsed).output_dir = parsed.output_dir ∧
    (overrideReportTo parsed).push_to_hub = parsed.push_to_hub ∧
    scriptMainTrace script_args parsed =
      trainAndPersist script_args (overrideReportTo parsed) :=
  ⟨rfl, rfl, rfl, rfl, rfl⟩

end SftScript
